import Mathlib

/-!
Verification development for the curriculum-generator LLM orchestration layer
(`app/curriculum_agent.py` and the streaming boundary in `app/main.py`).

The Python code is shallowly embedded: pure logic becomes Lean functions,
exceptions become an explicit `PyError` sum carried in `Except`/`Option`,
generator functions become functions producing the list of yielded events plus
an optional raised error, and the LLM backend is abstracted as an explicit
outcome parameter (failure or the list of streamed text chunks).
-/

/-- A decoded JSON value, as produced by Python `json.loads`.  Numbers keep the
matched literal text (Python converts to int/float; no claim depends on the
numeric conversion).  Objects keep insertion order with last-wins duplicate
keys, as CPython dicts do. -/
inductive JsonValue : Type
  | null : JsonValue
  | bool (b : Bool) : JsonValue
  | num (lit : String) : JsonValue
  | str (s : String) : JsonValue
  | arr (elts : List JsonValue) : JsonValue
  | obj (fields : List (String × JsonValue)) : JsonValue

/-- The Python exceptions that the modelled code can raise or match on.
`timeoutError` is `litellm.exceptions.Timeout`; `retryError` is
`tenacity.RetryError` wrapping the final attempt's exception.  In litellm's
exception hierarchy `InternalServerError` is a sibling of
`ServiceUnavailableError` (both subclass `openai.APIStatusError`), so it is a
distinct constructor here. -/
inductive PyError : Type
  | valueError (msg : String) : PyError
  | attributeError : PyError
  | timeoutError : PyError
  | rateLimitError : PyError
  | apiConnectionError : PyError
  | serviceUnavailableError : PyError
  | internalServerError : PyError
  | authenticationError : PyError
  | badRequestError : PyError
  | retryError (last : PyError) : PyError

/-- Rough rendering of Python `str(exception)`, used only to build the
combined-failure message of `generate_curriculum_parallel_streaming`. -/
def pyErrStr : PyError → String
  | .valueError m => m
  | .attributeError => "AttributeError"
  | .timeoutError => "litellm.Timeout"
  | .rateLimitError => "litellm.RateLimitError"
  | .apiConnectionError => "litellm.APIConnectionError"
  | .serviceUnavailableError => "litellm.ServiceUnavailableError"
  | .internalServerError => "litellm.InternalServerError"
  | .authenticationError => "litellm.AuthenticationError"
  | .badRequestError => "litellm.BadRequestError"
  | .retryError e => "RetryError: " ++ pyErrStr e

/-- JSON inter-token whitespace accepted by `json.loads` (space, tab, newline,
carriage return). -/
def json_ws (c : Char) : Bool :=
  (c == ' ') || (c == '\t') || (c == '\n') || (c == '\r')

def skip_ws (s : List Char) : List Char := s.dropWhile json_ws

/-- ASCII whitespace for the regex class `\s` and Python `str.strip()`
(the inputs in this development are ASCII). -/
def py_ws (c : Char) : Bool :=
  (c == ' ') || (c == '\t') || (c == '\n') || (c == '\r') || (c == '\x0b') || (c == '\x0c')

/-- `l.strip()` on characters: drop leading and trailing whitespace. -/
def strip_chars (l : List Char) : List Char :=
  ((l.dropWhile py_ws).reverse.dropWhile py_ws).reverse

/-- Index of the first occurrence of `pat` as a contiguous sublist of `s`
(the semantics of `re.search` locating a literal). -/
def find_sub (pat : List Char) (s : List Char) : Option Nat :=
  if pat.isPrefixOf s then some 0
  else
    match s with
    | [] => none
    | _ :: t => (find_sub pat t).map (fun n => n + 1)

def fence_chars : List Char := ['\x60', '\x60', '\x60']

def json_fence_chars : List Char := ['\x60', '\x60', '\x60', 'j', 's', 'o', 'n']

/-- The second regex alternative of `_parse_json_response`:
(r) triple-backtick fence with no language hint, first open/close pair,
content stripped; if no complete fence exists the text is used verbatim. -/
def try_plain_fence (s : List Char) : List Char :=
  match find_sub fence_chars s with
  | none => s
  | some i =>
    let rest := s.drop (i + 3)
    match find_sub fence_chars rest with
    | none => s
    | some j => strip_chars (rest.take j)

/-- Fence extraction of `_parse_json_response` (curriculum_agent.py:386-397):
first try the pattern with a `json` hint over the whole text, then the plain
fence pattern, else the text verbatim.  The regex's lazy capture between
greedy `\s*` anchors amounts to: content runs from just after the opening
marker to the next occurrence of a closing triple backtick, with surrounding
whitespace stripped (the code additionally calls `.strip()`, which is
idempotent on that). -/
def extract_fenced (s : List Char) : List Char :=
  match find_sub json_fence_chars s with
  | none => try_plain_fence s
  | some i =>
    let rest := s.drop (i + 7)
    match find_sub fence_chars rest with
    | none => try_plain_fence s
    | some j => strip_chars (rest.take j)

def extract_json_content (s : String) : String := ⟨extract_fenced s.data⟩

/-- Hexadecimal digit value, for `\uXXXX` escapes. -/
def hex_digit_val (c : Char) : Option Nat :=
  if '0' ≤ c ∧ c ≤ '9' then some (c.toNat - ('0').toNat)
  else if 'a' ≤ c ∧ c ≤ 'f' then some (c.toNat - ('a').toNat + 10)
  else if 'A' ≤ c ∧ c ≤ 'F' then some (c.toNat - ('A').toNat + 10)
  else none

def simple_escape : Char → Option Char
  | '"' => some '"'
  | '\\' => some '\\'
  | '/' => some '/'
  | 'b' => some (Char.ofNat 8)
  | 'f' => some (Char.ofNat 12)
  | 'n' => some '\n'
  | 'r' => some '\r'
  | 't' => some '\t'
  | _ => none

/-- Body of a JSON string literal after the opening quote.  Returns the decoded
characters and the input after the closing quote.  Errors carry the length of
the remaining input at the error position (converted to an absolute position
at top level); `start` is the remaining length at the opening quote, used for
the unterminated-string diagnostic. -/
def parse_string_body : Nat → List Char → Nat → Except (String × Nat) (List Char × List Char)
  | _, [], start => .error (("Unterminated string starting at"), start)
  | 0, _, start => .error (("Unterminated string starting at"), start)
  | Nat.succ fuel, c :: rest, start =>
    if c = '"' then .ok ([], rest)
    else if c = '\\' then
      match rest with
      | [] => .error (("Unterminated string starting at"), start)
      | e :: rest2 =>
        if e = 'u' then
          match rest2 with
          | d1 :: d2 :: d3 :: d4 :: rest3 =>
            match hex_digit_val d1, hex_digit_val d2, hex_digit_val d3, hex_digit_val d4 with
            | some a, some b, some c2, some d =>
              match parse_string_body fuel rest3 start with
              | .ok (tail, r) => .ok (Char.ofNat (((a * 16 + b) * 16 + c2) * 16 + d) :: tail, r)
              | .error er => .error er
            | _, _, _, _ => .error (("Invalid \\uXXXX escape"), rest2.length + 1)
          | _ => .error (("Invalid \\uXXXX escape"), rest2.length + 1)
        else
          match simple_escape e with
          | some ec =>
            match parse_string_body fuel rest2 start with
            | .ok (tail, r) => .ok (ec :: tail, r)
            | .error er => .error er
          | none => .error (("Invalid \\escape"), rest.length + 1)
    else if c.toNat < 32 then .error (("Invalid control character"), rest.length + 1)
    else
      match parse_string_body fuel rest start with
      | .ok (tail, r) => .ok (c :: tail, r)
      | .error er => .error er

/-- `true`/`false`/`null`/`NaN`/`Infinity` keyword matching; on failure the
scanner reports `Expecting value` at the value's start, like CPython. -/
def json_literal (expect rest : List Char) (v : JsonValue) (orig : List Char) :
    Except (String × Nat) (JsonValue × List Char) :=
  if expect.isPrefixOf rest then .ok (v, rest.drop expect.length)
  else .error (("Expecting value"), orig.length)

/-- Integer part of the JSON number grammar: `0` or a nonzero digit followed
by digits (mirrors the stdlib NUMBER_RE). -/
def lex_int_part : List Char → Option (List Char × List Char)
  | '0' :: t => some (['0'], t)
  | c :: t => if c.isDigit then some (c :: t.takeWhile Char.isDigit, t.dropWhile Char.isDigit) else none
  | [] => none

def lex_frac : List Char → List Char × List Char
  | '.' :: t =>
    match t.takeWhile Char.isDigit with
    | [] => ([], '.' :: t)
    | ds => ('.' :: ds, t.dropWhile Char.isDigit)
  | s => ([], s)

def lex_exp : List Char → List Char × List Char
  | [] => ([], [])
  | c :: t =>
    if c = 'e' ∨ c = 'E' then
      let (sign, t2) :=
        match t with
        | s2 :: t2 => if s2 = '+' ∨ s2 = '-' then ([s2], t2) else ([], s2 :: t2)
        | [] => (([] : List Char), ([] : List Char))
      match t2.takeWhile Char.isDigit with
      | [] => ([], c :: t)
      | ds => (c :: (sign ++ ds), t2.dropWhile Char.isDigit)
    else ([], c :: t)

/-- Lex a JSON number literal; returns the matched literal and the rest. -/
def lex_number (s : List Char) : Option (List Char × List Char) :=
  let (sgn, s1) :=
    match s with
    | '-' :: t => ((['-'] : List Char), t)
    | _ => (([] : List Char), s)
  match lex_int_part s1 with
  | none => none
  | some (ip, r1) =>
    let (fp, r2) := lex_frac r1
    let (ep, r3) := lex_exp r2
    some (sgn ++ ip ++ fp ++ ep, r3)

/-- Insert with CPython dict semantics: replace the value of an existing key
in place, else append. -/
def obj_insert : List (String × JsonValue) → String → JsonValue → List (String × JsonValue)
  | [], k, v => [(k, v)]
  | (k0, v0) :: rest, k, v =>
    if k0 = k then (k0, v) :: rest else (k0, v0) :: obj_insert rest k v

mutual

/-- Strict JSON value parser mirroring CPython's `json` scanner.  `fuel`
bounds recursion depth; the top level supplies `length + 2`, which can never
be exhausted because every recursion level consumes at least one character. -/
def parse_value : Nat → List Char → Except (String × Nat) (JsonValue × List Char)
  | 0, s => .error (("Expecting value"), s.length)
  | Nat.succ fuel, s =>
    match s with
    | [] => .error (("Expecting value"), 0)
    | c :: rest =>
      if c = '\x7b' then
        let s1 := skip_ws rest
        match s1 with
        | '\x7d' :: r => .ok (.obj [], r)
        | _ => parse_object fuel s1 []
      else if c = '[' then
        let s1 := skip_ws rest
        match s1 with
        | ']' :: r => .ok (.arr [], r)
        | _ => parse_array fuel s1 []
      else if c = '"' then
        match parse_string_body fuel rest (rest.length + 1) with
        | .error e => .error e
        | .ok (content, r) => .ok (.str (⟨content⟩ : String), r)
      else if c = 't' then json_literal (['r', 'u', 'e']) rest (.bool true) s
      else if c = 'f' then json_literal (['a', 'l', 's', 'e']) rest (.bool false) s
      else if c = 'n' then json_literal (['u', 'l', 'l']) rest .null s
      else if c = 'N' then json_literal (['a', 'N']) rest (.num ("NaN")) s
      else if c = 'I' then json_literal (['n', 'f', 'i', 'n', 'i', 't', 'y']) rest (.num ("Infinity")) s
      else if c = '-' ∨ c.isDigit then
        match lex_number s with
        | some (lit, r) => .ok (.num (⟨lit⟩ : String), r)
        | none =>
          if (['-', 'I', 'n', 'f', 'i', 'n', 'i', 't', 'y']).isPrefixOf s then
            .ok (.num ("-Infinity"), s.drop 9)
          else .error (("Expecting value"), s.length)
      else .error (("Expecting value"), s.length)

/-- Object members, positioned at a property name.  The empty-object case is
handled by `parse_value` before the first call. -/
def parse_object : Nat → List Char → List (String × JsonValue) →
    Except (String × Nat) (JsonValue × List Char)
  | 0, s, _ => .error (("Expecting property name enclosed in double quotes"), s.length)
  | Nat.succ fuel, s, acc =>
    match s with
    | '"' :: rest =>
      match parse_string_body fuel rest (rest.length + 1) with
      | .error e => .error e
      | .ok (key, r1) =>
        match skip_ws r1 with
        | ':' :: r2 =>
          match parse_value fuel (skip_ws r2) with
          | .error e => .error e
          | .ok (v, r3) =>
            let acc2 := obj_insert acc (⟨key⟩ : String) v
            match skip_ws r3 with
            | '\x7d' :: r4 => .ok (.obj acc2, r4)
            | ',' :: r4 => parse_object fuel (skip_ws r4) acc2
            | r4 => .error (("Expecting comma delimiter"), r4.length)
        | r2 => .error (("Expecting colon delimiter"), r2.length)
    | r => .error (("Expecting property name enclosed in double quotes"), r.length)

/-- Array elements, positioned at a value.  The empty-array case is handled by
`parse_value`. -/
def parse_array : Nat → List Char → List JsonValue →
    Except (String × Nat) (JsonValue × List Char)
  | 0, s, _ => .error (("Expecting value"), s.length)
  | Nat.succ fuel, s, acc =>
    match parse_value fuel s with
    | .error e => .error e
    | .ok (v, r1) =>
      let acc2 := acc ++ [v]
      match skip_ws r1 with
      | ']' :: r2 => .ok (.arr acc2, r2)
      | ',' :: r2 => parse_array fuel (skip_ws r2) acc2
      | r2 => .error (("Expecting comma delimiter"), r2.length)

end

/-- Decode a whole document: leading whitespace, one value, trailing
whitespace, then end of input (else `Extra data`), as `json.loads` does. -/
def json_decode_chars (doc : List Char) : Except (String × Nat) JsonValue :=
  match parse_value (doc.length + 2) (skip_ws doc) with
  | .error e => .error e
  | .ok (v, rest) =>
    match skip_ws rest with
    | [] => .ok v
    | r => .error (("Extra data"), r.length)

/-- Render a decode error in CPython's format
`<what>: line L column C (char N)`; `rem` is the remaining input length at the
error, converted here to an absolute position. -/
def json_err_render (doc : List Char) (rem : Nat) (what : String) : String :=
  let pos := doc.length - rem
  let before := doc.take pos
  let line := 1 + before.countP (fun c => c == '\n')
  let col :=
    match before.reverse.findIdx? (fun c => c == '\n') with
    | some k => k + 1
    | none => pos + 1
  what ++ ": line " ++ toString line ++ " column " ++ toString col ++
    " (char " ++ toString pos ++ ")"

/-- `json.loads` on a string, with CPython-style positional error messages
(the message text never embeds the document itself, as in CPython). -/
def json_decode (s : String) : Except String JsonValue :=
  match json_decode_chars s.data with
  | .ok v => .ok v
  | .error (what, rem) => .error (json_err_render s.data rem what)

/-- `_parse_json_response` (curriculum_agent.py:380-403): extract fenced
content, decode strictly; on `JSONDecodeError` re-raise as a plain
`ValueError` whose message interpolates only the decode error (the 500-char
preview of the original text goes to the log, not the exception). -/
def parse_json_response (s : String) : Except PyError JsonValue :=
  match json_decode (extract_json_content s) with
  | .ok v => .ok v
  | .error e => .error (.valueError ("Failed to parse LLM response as JSON: " ++ e))

/-- Python truthiness of a decoded JSON value (`if curriculum:` in main.py):
empty dict/list/string, zero numbers, `false` and `None` are falsy. -/
def num_lit_is_zero (lit : String) : Bool :=
  (lit.data.takeWhile (fun c => !((c == 'e') || (c == 'E')))).all
    (fun c => !(c.isDigit) || (c == '0'))

def py_truthy : JsonValue → Bool
  | .null => false
  | .bool b => b
  | .num lit => !(num_lit_is_zero lit)
  | .str s => !(s == "")
  | .arr es => !(es.isEmpty)
  | .obj fs => !(fs.isEmpty)

/-- First-match field lookup; keys are unique because the decoder and all
object constructions use `obj_insert`. -/
def lookup_field : List (String × JsonValue) → String → Option JsonValue
  | [], _ => none
  | (k, v) :: rest, key => if k = key then some v else lookup_field rest key

/-- Python `x.get(key, x)` where `x` was produced by `json.loads`: for a dict
it is the key's value or the whole dict as default; any non-dict value has no
`.get` attribute and raises `AttributeError`. -/
def py_dict_get_self (v : JsonValue) (key : String) : Except PyError JsonValue :=
  match v with
  | .obj fields => .ok ((lookup_field fields key).getD (.obj fields))
  | _ => .error .attributeError

-- ===========================================================================
-- Model registry (curriculum_agent.py:31-49, 229-238)
-- ===========================================================================

structure ModelConfig : Type where
  id : String
  name : String
  provider : String

def AVAILABLE_MODELS : List (String × ModelConfig) :=
  [("claude-sonnet-4.5", ⟨("claude-sonnet-4-5-20250929"), ("Claude Sonnet 4.5"), ("Anthropic")⟩),
   ("gemini-3-flash", ⟨("gemini/gemini-3-flash-preview"), ("Gemini 3 Flash"), ("Google")⟩),
   ("gemini-3-pro", ⟨("gemini/gemini-3-pro-preview"), ("Gemini 3 Pro"), ("Google")⟩)]

def DEFAULT_MODEL : String := "gemini-3-flash"

/-- `_get_model_id`: default the key, look it up, raise `ValueError` for an
unknown key, else return the backend id. -/
def get_model_id (model_key : Option String) : Except PyError String :=
  let key := model_key.getD DEFAULT_MODEL
  match AVAILABLE_MODELS.lookup key with
  | some cfg => .ok cfg.id
  | none => .error (.valueError ("Unknown model: " ++ key))

-- ===========================================================================
-- Resilient call executor (curriculum_agent.py:245-298)
-- ===========================================================================

/-- Membership in the `RETRY_EXCEPTIONS` tuple (curriculum_agent.py:245-250):
`RateLimitError`, `APIConnectionError`, `Timeout`, `ServiceUnavailableError`.
litellm's `InternalServerError` is not a subclass of any of these, so it is
not retryable. -/
def RETRY_EXCEPTIONS_mem : PyError → Bool
  | .rateLimitError => true
  | .apiConnectionError => true
  | .timeoutError => true
  | .serviceUnavailableError => true
  | _ => false

/-- Result of running a tenacity-wrapped call: success or an exception, each
with the number of attempts actually made. -/
inductive RetryOutcome (α : Type) : Type
  | ok (attempts : Nat) (val : α) : RetryOutcome α
  | raised (attempts : Nat) (err : PyError) : RetryOutcome α

/-- The `@retry(stop=stop_after_attempt(3), retry=retry_if_exception_type(
RETRY_EXCEPTIONS))` decorator on `_call_llm_sync`/`_call_llm_async`:
a non-retryable exception re-raises immediately; a retryable one is retried
up to 3 total attempts; when the stop condition ends the run, tenacity's
default `reraise=False` raises a `RetryError` wrapping the last attempt.
`f n` is the behaviour of the wrapped call on its n-th attempt. -/
def tenacity_retry3 {α : Type} (f : Nat → Except PyError α) : RetryOutcome α :=
  match f 1 with
  | .ok a => .ok 1 a
  | .error e1 =>
    if RETRY_EXCEPTIONS_mem e1 then
      match f 2 with
      | .ok a => .ok 2 a
      | .error e2 =>
        if RETRY_EXCEPTIONS_mem e2 then
          match f 3 with
          | .ok a => .ok 3 a
          | .error e3 =>
            if RETRY_EXCEPTIONS_mem e3 then .raised 3 (.retryError e3)
            else .raised 3 e3
        else .raised 2 e2
    else .raised 1 e1

/-- The argument record a single `litellm.completion`/`acompletion` call
receives.  `_call_llm_sync` and `_call_llm_async` both hard-code
`timeout=300` (curriculum_agent.py:273, 297). -/
structure LLMCallSpec : Type where
  model_id : String
  max_tokens : Nat
  stream : Bool
  timeout_secs : Nat

def call_llm_sync_spec (model_id : String) (max_tokens : Nat) (stream : Bool) : LLMCallSpec :=
  ⟨model_id, max_tokens, stream, 300⟩

def call_llm_async_spec (model_id : String) (max_tokens : Nat) (stream : Bool) : LLMCallSpec :=
  ⟨model_id, max_tokens, stream, 300⟩

-- ===========================================================================
-- Orchestrator (curriculum_agent.py:301-377, 456-547) and the SSE boundary
-- (main.py:257-295)
-- ===========================================================================

/-- The caller-supplied configuration relevant to the orchestrator
(`teacher_input` as built by `_build_teacher_input`). -/
structure TeacherInput : Type where
  grade : Nat
  subject : String
  topic : String
  session_length_minutes : Nat
  num_days : Nat

/-- The call issued by the single-call strategy `generate_curriculum`
(curriculum_agent.py:324-328): `max_tokens` is the literal 16000, independent
of the teacher input (in particular of `num_days`). -/
def generate_curriculum_call (model_key : Option String) (_input : TeacherInput) :
    Except PyError LLMCallSpec :=
  (get_model_id model_key).map (fun mid => call_llm_sync_spec mid 16000 false)

/-- Modelled from the spec: the single-call token budget formula
`base_tokens + (num_days - 1) * per_day_increment` with base 16000 and
increment 8000 (spec §4.4).  No such computation exists anywhere in the
source; this definition exists only to compare the spec's formula with the
code's constant. -/
def spec_single_call_max_tokens (num_days : Nat) : Nat :=
  16000 + (num_days - 1) * 8000

/-- The dual-call strategy's sub-call budgets (curriculum_agent.py:425, 450). -/
def generate_teacher_guide_call (model_id : String) : LLMCallSpec :=
  call_llm_async_spec model_id 8000 false

def generate_student_materials_call (model_id : String) : LLMCallSpec :=
  call_llm_async_spec model_id 10000 false

/-- `generate_curriculum` (curriculum_agent.py:301-331): resolve the model,
call the backend, and return `_parse_json_response` of the response text
unchanged — no shape validation.  The backend response text is an explicit
parameter. -/
def generate_curriculum_result (model_key : Option String) (response_text : String) :
    Except PyError JsonValue :=
  match get_model_id model_key with
  | .error e => .error e
  | .ok _ => parse_json_response response_text

/-- Events yielded by the agent generators. -/
inductive AgentEvent : Type
  | progress (stage : String) (message : String) : AgentEvent
  | curriculum (data : JsonValue) : AgentEvent

/-- One run of a generator function: the events it yielded in order, the
exception it raised after the last of them (if any), and the backend model
ids it invoked, in call order. -/
structure StreamRun : Type where
  events : List AgentEvent
  outcome : Option PyError
  calls : List String

/-- Outcome of the (retry-wrapped) streaming LLM call as observed by the
generator: either the call or the chunk iteration fails, or it yields a list
of text-fragment contents. -/
inductive LLMStreamResult : Type
  | failure (e : PyError) : LLMStreamResult
  | chunks (cs : List String) : LLMStreamResult

/-- The periodic liveness events of the chunk loop
(curriculum_agent.py:364-372): count chunks with non-empty content and emit a
progress event every 50th, reporting accumulated character count. -/
def chunk_progress_go : List String → Nat → Nat → List AgentEvent
  | [], _, _ => []
  | c :: rest, count, len =>
    if c = "" then chunk_progress_go rest count len
    else
      let len2 := len + c.length
      if (count + 1) % 50 = 0 then
        .progress ("generating") ("Generating curriculum... (" ++ toString len2 ++ " chars)") ::
          chunk_progress_go rest (count + 1) len2
      else chunk_progress_go rest (count + 1) len2

def chunk_progress_events (cs : List String) : List AgentEvent :=
  chunk_progress_go cs 0 0

/-- `generate_curriculum_streaming` (curriculum_agent.py:334-377).  An invalid
model key raises before the first yield; otherwise the generator emits the
loading/generating progress events, then either the backend call raises, or
the chunks are accumulated (with periodic progress), parsed, and the
curriculum event is yielded (a parse failure raises `ValueError` from
`_parse_json_response`).  No fallback of any kind exists: exactly one model
is ever invoked per run. -/
def generate_curriculum_streaming_model (model_key : Option String)
    (llm : LLMStreamResult) : StreamRun :=
  match get_model_id model_key with
  | .error e => ⟨[], some e, []⟩
  | .ok mid =>
    let pre : List AgentEvent :=
      [.progress ("loading") ("Loading standards..."),
       .progress ("generating") ("Generating curriculum...")]
    match llm with
    | .failure e => ⟨pre, some e, [mid]⟩
    | .chunks cs =>
      let evs := pre ++ chunk_progress_events cs ++ [.progress ("parsing") ("Parsing response...")]
      match parse_json_response (String.join cs) with
      | .ok v => ⟨evs ++ [.curriculum v], none, [mid]⟩
      | .error e => ⟨evs, some e, [mid]⟩

/-- `_merge_parallel_results` (curriculum_agent.py:456-461); the `.get`
pattern raises `AttributeError` when a sub-result is not a dict. -/
def merge_parallel_results (t s : JsonValue) : Except PyError JsonValue :=
  match py_dict_get_self t ("teacher_guide") with
  | .error e => .error e
  | .ok tg =>
    match py_dict_get_self s ("student_materials") with
    | .error e => .error e
    | .ok sm => .ok (.obj [("teacher_guide", tg), ("student_materials", sm)])

/-- The completion-notification events of the 0.5s polling loop
(curriculum_agent.py:508-530).  `teacher_first` selects which task is
observed done first; the student success message depends on whether the
teacher side is already done. -/
def poll_events (teacher_ok student_ok teacher_first : Bool) : List AgentEvent :=
  let teacher_ev : AgentEvent :=
    .progress ("generating")
      (if teacher_ok then ("Teacher guide complete, waiting for student materials...")
       else ("Teacher guide failed, waiting for student materials..."))
  let student_ev (teacher_done : Bool) : AgentEvent :=
    .progress ("generating")
      (if student_ok then
        (if teacher_done then ("Student materials complete!")
         else ("Student materials complete, waiting for teacher guide..."))
       else ("Student materials failed."))
  if teacher_first then [teacher_ev, student_ev true]
  else [student_ev false, teacher_ev]

/-- The terminal part of `generate_curriculum_parallel_streaming`
(curriculum_agent.py:532-546): both failed → combined `ValueError`; one
failed → partial-merge progress event then a curriculum whose failed side is
`\x7b\x7d`; both succeeded → merge.  The `.get` calls sit inside the yielded
expressions, so an `AttributeError` from a non-dict sub-result is raised
after the progress event. -/
def parallel_terminal (mid : String) (body : List AgentEvent)
    (teacher_res student_res : Except PyError JsonValue) : StreamRun :=
  match teacher_res, student_res with
  | .error e1, .error e2 =>
    ⟨body, some (.valueError ("Both generations failed. Teacher: " ++ pyErrStr e1 ++
      ", Student: " ++ pyErrStr e2)), [mid, mid]⟩
  | .error _, .ok sv =>
    let ev := AgentEvent.progress ("parsing") ("Merging partial results (teacher guide unavailable)...")
    match py_dict_get_self sv ("student_materials") with
    | .ok sm =>
      ⟨body ++ [ev, .curriculum (.obj [("teacher_guide", .obj []), ("student_materials", sm)])],
       none, [mid, mid]⟩
    | .error e => ⟨body ++ [ev], some e, [mid, mid]⟩
  | .ok tv, .error _ =>
    let ev := AgentEvent.progress ("parsing") ("Merging partial results (student materials unavailable)...")
    match py_dict_get_self tv ("teacher_guide") with
    | .ok tg =>
      ⟨body ++ [ev, .curriculum (.obj [("teacher_guide", tg), ("student_materials", .obj [])])],
       none, [mid, mid]⟩
    | .error e => ⟨body ++ [ev], some e, [mid, mid]⟩
  | .ok tv, .ok sv =>
    let ev := AgentEvent.progress ("parsing") ("Merging results...")
    match merge_parallel_results tv sv with
    | .ok d => ⟨body ++ [ev, .curriculum d], none, [mid, mid]⟩
    | .error e => ⟨body ++ [ev], some e, [mid, mid]⟩

def except_ok : Except PyError JsonValue → Bool
  | .ok _ => true
  | .error _ => false

/-- `generate_curriculum_parallel_streaming` (curriculum_agent.py:483-547).
The two sub-call outcomes (already including their own retry behaviour and
response parsing) and the completion order are explicit parameters. -/
def generate_curriculum_parallel_streaming_model (model_key : Option String)
    (teacher_res student_res : Except PyError JsonValue) (teacher_first : Bool) : StreamRun :=
  match get_model_id model_key with
  | .error e => ⟨[], some e, []⟩
  | .ok mid =>
    let body : List AgentEvent :=
      [.progress ("loading") ("Loading standards..."),
       .progress ("generating") ("Generating curriculum (parallel)...")] ++
      poll_events (except_ok teacher_res) (except_ok student_res) teacher_first
    parallel_terminal mid body teacher_res student_res

/-- The server-sent events written by `event_generator` (main.py:257-289). -/
inductive SSEEvent : Type
  | progress (stage : String) (message : String) : SSEEvent
  | result (document : String) (data : JsonValue) : SSEEvent
  | error (message : String) : SSEEvent

/-- The two user-facing failure messages of `event_generator`: the
`litellm.exceptions.Timeout` handler only matches a bare `Timeout` (a
`RetryError` wrapping one falls to the generic handler). -/
def stream_error_message : PyError → String
  | .timeoutError => "Generation timed out. Try again or select a different model."
  | _ => "Generation failed. Please try again."

/-- Per-update translation inside `event_generator`'s loop: a curriculum
update becomes the `curriculum_complete` progress event, everything else is
forwarded. -/
def sse_step : AgentEvent → SSEEvent
  | .progress st m => .progress st m
  | .curriculum _ => .progress ("curriculum_complete") ("Curriculum generated!")

/-- The final value of the `curriculum` variable after the loop. -/
def last_curriculum (evs : List AgentEvent) : Option JsonValue :=
  evs.foldl (fun acc ev => match ev with | .curriculum v => some v | _ => acc) none

/-- `event_generator` (main.py:257-289) consuming one agent run: forward the
events; if the generator raised, the `except` handlers emit a single error
event; otherwise `if curriculum:` — Python truthiness — decides whether the
docx/complete progress events and the `result` event are emitted (the
document renderer is the black-box collaborator of spec §6 and is modelled as
returning a filename). -/
def sse_of_run (run : StreamRun) : List SSEEvent :=
  let body := run.events.map sse_step
  match run.outcome with
  | some e => body ++ [.error (stream_error_message e)]
  | none =>
    match last_curriculum run.events with
    | some v =>
      if py_truthy v then
        body ++ [.progress ("docx") ("Generating document..."),
                 .progress ("complete") ("Complete!"),
                 .result ("curriculum.docx") v]
      else body
    | none => body

/-- Stage of an agent event, for stating that no `fallback` stage exists. -/
def agent_event_stage : AgentEvent → String
  | .progress st _ => st
  | .curriculum _ => "curriculum"

def is_terminal_sse : SSEEvent → Bool
  | .result _ _ => true
  | .error _ => true
  | .progress _ _ => false

def is_curriculum_event : AgentEvent → Bool
  | .curriculum _ => true
  | _ => false

/-- Whether an event is a curriculum event whose payload exposes exactly the
top-level keys `teacher_guide` and `student_materials` (true for any
non-curriculum event). -/
def curriculum_two_key : AgentEvent → Bool
  | .curriculum (.obj [(k1, _), (k2, _)]) =>
    (k1 == "teacher_guide") && (k2 == "student_materials")
  | .curriculum _ => false
  | _ => true

def is_json_obj : JsonValue → Bool
  | .obj _ => true
  | _ => false

def top_level_keys : JsonValue → List String
  | .obj fields => fields.map (fun kv => kv.1)
  | _ => []

/-- Whether a progress event names the teacher side as failed (the two such
messages of `generate_curriculum_parallel_streaming`). -/
def mentions_teacher_failure : AgentEvent → Bool
  | .progress _ m =>
    (m == "Teacher guide failed, waiting for student materials...") ||
    (m == "Merging partial results (teacher guide unavailable)...")
  | _ => false

def mentions_student_failure : AgentEvent → Bool
  | .progress _ m =>
    (m == "Student materials failed.") ||
    (m == "Merging partial results (student materials unavailable)...")
  | _ => false

/-- A json-hinted markdown fence holding `inner`, followed by arbitrary
further text `tail`: ` ```json\n<inner>\n```<tail> `.  Instantiating `tail`
with `sep ++ json_block_with inner2 []` gives a text containing two JSON
fences. -/
def json_block_with (inner tail : List Char) : List Char :=
  '\x60' :: '\x60' :: '\x60' :: 'j' :: 's' :: 'o' :: 'n' :: '\n' ::
    (inner ++ ('\n' :: '\x60' :: '\x60' :: '\x60' :: tail))

example : json_decode ("\x7b\"key\": \"value\", \"number\": 42\x7d") =
    .ok (.obj [("key", .str ("value")), ("number", .num ("42"))]) := by rfl

example : json_decode ("") = .error ("Expecting value: line 1 column 1 (char 0)") := by rfl

example : json_decode ("\x7binvalid json\x7d") =
    .error ("Expecting property name enclosed in double quotes: line 1 column 2 (char 1)") := by rfl

example : parse_json_response ("```json\n\x7b\"a\": [1, 2.5, true, null]\x7d\n```") =
    .ok (.obj [("a", .arr [.num ("1"), .num ("2.5"), .bool true, .null])]) := by rfl

example : parse_json_response ("```\n\x7b\"key\": \"value\"\x7d\n```") =
    .ok (.obj [("key", .str ("value"))]) := by rfl

example : extract_json_content ("no fences here") = ("no fences here") := by rfl

-- ===========================================================================
-- Claim theorems
-- ===========================================================================

/-- Claim C2 (corrected).  The single-call strategy passes the literal
constant 16000 as `max_tokens`; the budget does not depend on the teacher
input at all, in particular not on `num_days`.  Of the claimed formula only
`max_tokens(1) = 16000` survives; the budget is constant, hence not strictly
monotone in `num_days`. -/
theorem c2_constant_token_budget :
    (∀ (k : Option String) (i : TeacherInput),
      (generate_curriculum_call k i).map (fun c => c.max_tokens) =
        (get_model_id k).map (fun _ => 16000)) ∧
    (∀ (k : Option String) (i j : TeacherInput),
      generate_curriculum_call k i = generate_curriculum_call k j) ∧
    spec_single_call_max_tokens 1 = 16000 := by
  refine ⟨?_, ?_, rfl⟩
  · intro k i
    cases hg : get_model_id k <;>
      simp [generate_curriculum_call, hg, Except.map, call_llm_sync_spec]
  · intro k i j
    rfl

/-- Claim C2 counterexample: at `num_days = 2` the code passes 16000 while
the claimed formula gives 24000, and the budget for 2 days equals the budget
for 1 day, refuting strict monotonicity. -/
theorem c2_counterexample :
    (generate_curriculum_call none ⟨6, ("Math"), ("fractions"), 45, 2⟩).map
      (fun c => c.max_tokens) = .ok 16000 ∧
    spec_single_call_max_tokens 2 = 24000 ∧
    ¬ ((16000 : Nat) = spec_single_call_max_tokens 2) ∧
    generate_curriculum_call none ⟨6, ("Math"), ("fractions"), 45, 2⟩ =
      generate_curriculum_call none ⟨6, ("Math"), ("fractions"), 45, 1⟩ :=
  ⟨rfl, rfl, by decide, rfl⟩

/-- Claim C3 (corrected).  A call failing every attempt with one of the four
classes in `RETRY_EXCEPTIONS` (rate-limit, connection, timeout,
service-unavailable) is attempted exactly 3 times, after which tenacity
raises a `RetryError` wrapping the last error (the decorator does not set
`reraise=True`); a call failing with any other class — including litellm's
`InternalServerError`, the backend internal/overload error — is attempted
exactly once and the error propagates immediately. -/
theorem c3_retry_classification :
    ∀ (e : PyError),
      tenacity_retry3 (fun _ => (Except.error e : Except PyError Unit)) =
        (if RETRY_EXCEPTIONS_mem e then .raised 3 (.retryError e) else .raised 1 e) := by
  intro e
  cases e <;> rfl

/-- Claim C3 counterexample: a backend internal/overload error
(`litellm.exceptions.InternalServerError`), which the claim lists as
retryable, is not in the code's `RETRY_EXCEPTIONS` tuple: the call is
attempted exactly once, not 3 times. -/
theorem c3_counterexample :
    tenacity_retry3 (fun _ => (Except.error PyError.internalServerError : Except PyError Unit)) =
      .raised 1 .internalServerError ∧
    RETRY_EXCEPTIONS_mem .internalServerError = false ∧
    (1 : Nat) ≠ 3 :=
  ⟨rfl, rfl, by decide⟩

/-- Claim C8 (corrected).  Both flavours of the resilient call executor pass
a fixed per-call timeout to the backend, but its value is 300 seconds
(`timeout=300`, curriculum_agent.py:273 and 297), not 240. -/
theorem c8_call_timeout_300 :
    ∀ (mid : String) (mt : Nat) (st : Bool),
      (call_llm_sync_spec mid mt st).timeout_secs = 300 ∧
      (call_llm_async_spec mid mt st).timeout_secs = 300 :=
  fun _ _ _ => ⟨rfl, rfl⟩

/-- Claim C8 counterexample: the timeout actually passed is 300 seconds, not
the claimed default of 240. -/
theorem c8_counterexample :
    (call_llm_sync_spec ("gemini/gemini-3-flash-preview") 16000 false).timeout_secs = 300 ∧
    (call_llm_sync_spec ("gemini/gemini-3-flash-preview") 16000 false).timeout_secs ≠ 240 :=
  ⟨rfl, by decide⟩

/-- Claim C10 (confirmed).  `_parse_json_response` performs no check that the
decoded value is an object: fence content decoding to a JSON array, number or
string is returned unchanged with no error, so parse success does not
guarantee a dict-shaped result. -/
theorem c10_non_object_parse :
    parse_json_response ("```json\n[1, 2]\n```") = .ok (.arr [.num ("1"), .num ("2")]) ∧
    is_json_obj (.arr [.num ("1"), .num ("2")]) = false ∧
    parse_json_response ("7") = .ok (.num ("7")) ∧
    is_json_obj (.num ("7")) = false ∧
    parse_json_response ("\"hello\"") = .ok (.str ("hello")) ∧
    is_json_obj (.str ("hello")) = false :=
  ⟨rfl, rfl, rfl, rfl, rfl, rfl⟩

/-- Claim C5 (corrected).  On decode failure `_parse_json_response` raises a
plain `ValueError` whose message wraps only the decode error; every failure
of the parser is such a `ValueError` (never the raw `JSONDecodeError`).  The
500-character preview of the original text is logged, not carried on the
exception. -/
theorem c5_decode_failure_wraps_value_error :
    (∀ (s : String) (e : String),
      json_decode (extract_json_content s) = .error e →
      parse_json_response s =
        .error (.valueError ("Failed to parse LLM response as JSON: " ++ e))) ∧
    (∀ (s : String) (err : PyError),
      parse_json_response s = .error err → ∃ m, err = .valueError m) := by
  constructor
  · intro s e h
    unfold parse_json_response
    rw [h]
  · intro s err h
    unfold parse_json_response at h
    cases h2 : json_decode (extract_json_content s) with
    | ok v => rw [h2] at h; cases h
    | error e =>
      rw [h2] at h
      injection h with h3
      exact ⟨_, h3.symm⟩

theorem c5_decode_failure_wraps_value_error_witness :
    parse_json_response ("") =
      .error (.valueError ("Failed to parse LLM response as JSON: " ++
        "Expecting value: line 1 column 1 (char 0)")) :=
  c5_decode_failure_wraps_value_error.1 ("") ("Expecting value: line 1 column 1 (char 0)") rfl

/-- Claim C5 counterexample: for a failing input, the raised error is a plain
`ValueError` (no `ResponseParseError` class exists in the code), and its
message does not contain the first-500-character preview of the original text
(`find_sub` returning `none` means the preview does not occur in the
message); the preview is only logged. -/
theorem c5_counterexample :
    parse_json_response ("hello curriculum generator") =
      .error (.valueError ("Failed to parse LLM response as JSON: " ++
        "Expecting value: line 1 column 1 (char 0)")) ∧
    find_sub (String.data ("hello curriculum generator"))
      (String.data ("Failed to parse LLM response as JSON: Expecting value: line 1 column 1 (char 0)")) =
      none :=
  ⟨rfl, rfl⟩

/-- Claim C1 (corrected).  No fallback mechanism exists in the code: for any
model key and any failure of the (retry-wrapped) generation call, the
streaming pipeline invokes at most one model, emits no event with stage
`fallback`, and the SSE stream ends with a single terminal `error` event; the
strategy is never re-run against another model. -/
theorem c1_no_fallback_ever :
    ∀ (k : Option String) (e : PyError),
      (generate_curriculum_streaming_model k (.failure e)).calls.length ≤ 1 ∧
      ((generate_curriculum_streaming_model k (.failure e)).events.all
        (fun ev => !(agent_event_stage ev == "fallback"))) = true ∧
      ∃ m, (sse_of_run (generate_curriculum_streaming_model k (.failure e))).getLast? =
        some (.error m) := by
  intro k e
  cases hg : get_model_id k with
  | error e2 =>
    have hrun : generate_curriculum_streaming_model k (.failure e) = ⟨[], some e2, []⟩ := by
      unfold generate_curriculum_streaming_model
      rw [hg]
    rw [hrun]
    exact ⟨by simp, rfl, ⟨stream_error_message e2, rfl⟩⟩
  | ok mid =>
    have hrun : generate_curriculum_streaming_model k (.failure e) =
        ⟨[.progress ("loading") ("Loading standards..."),
          .progress ("generating") ("Generating curriculum...")], some e, [mid]⟩ := by
      unfold generate_curriculum_streaming_model
      rw [hg]
    rw [hrun]
    exact ⟨by simp, rfl, ⟨stream_error_message e, rfl⟩⟩

/-- Claim C1 counterexample: concrete failing runs on two different eligible
primary keys (whichever key a fallback designation could name, the other one
is distinct from it).  In each run the SSE stream is just the two progress
events and a terminal error, no `fallback` event is emitted, and exactly one
model — the requested one — is ever called. -/
theorem c1_counterexample :
    sse_of_run (generate_curriculum_streaming_model (some ("claude-sonnet-4.5"))
        (.failure (.retryError .rateLimitError))) =
      [.progress ("loading") ("Loading standards..."),
       .progress ("generating") ("Generating curriculum..."),
       .error ("Generation failed. Please try again.")] ∧
    (generate_curriculum_streaming_model (some ("claude-sonnet-4.5"))
        (.failure (.retryError .rateLimitError))).calls = [("claude-sonnet-4-5-20250929")] ∧
    ((generate_curriculum_streaming_model (some ("claude-sonnet-4.5"))
        (.failure (.retryError .rateLimitError))).events.all
      (fun ev => !(agent_event_stage ev == "fallback"))) = true ∧
    (sse_of_run (generate_curriculum_streaming_model (some ("gemini-3-pro"))
        (.failure (.retryError .serviceUnavailableError)))).getLast? =
      some (.error ("Generation failed. Please try again.")) ∧
    (generate_curriculum_streaming_model (some ("gemini-3-pro"))
        (.failure (.retryError .serviceUnavailableError))).calls = [("gemini/gemini-3-pro-preview")] :=
  ⟨rfl, rfl, rfl, rfl, rfl⟩

/-- Claim C9 (code bug).  When the model's streamed response parses to the
empty JSON object, `generate_curriculum_streaming` completes normally with a
curriculum event, but `event_generator`'s `if curriculum:` treats the empty
dict as falsy: the SSE stream then ends on a progress event, emitting neither
a `result` nor an `error` terminal event. -/
theorem c9_empty_curriculum_no_terminal_event :
    (generate_curriculum_streaming_model none (.chunks [("\x7b\x7d")])).outcome = none ∧
    (generate_curriculum_streaming_model none (.chunks [("\x7b\x7d")])).events.getLast? =
      some (.curriculum (.obj [])) ∧
    sse_of_run (generate_curriculum_streaming_model none (.chunks [("\x7b\x7d")])) =
      [.progress ("loading") ("Loading standards..."),
       .progress ("generating") ("Generating curriculum..."),
       .progress ("parsing") ("Parsing response..."),
       .progress ("curriculum_complete") ("Curriculum generated!")] ∧
    ((sse_of_run (generate_curriculum_streaming_model none (.chunks [("\x7b\x7d")]))).filter
      is_terminal_sse) = [] :=
  ⟨rfl, rfl, rfl, rfl⟩

/-- Claim C6 (confirmed).  In the dual-call strategy: if exactly one sub-call
fails, progress events naming the failed side are emitted and the run ends
successfully (no raised error) with a curriculum whose failed side is the
empty object and whose other side is populated from the succeeded sub-result
via the `.get(key, whole)` pattern; if both sub-calls fail, a combined
`ValueError` carrying both underlying failures is raised and no curriculum
event is ever emitted. -/
theorem c6_partial_failure_policy :
    (∀ (e : PyError) (fields : List (String × JsonValue)) (ord : Bool),
      (generate_curriculum_parallel_streaming_model none (.error e) (.ok (.obj fields)) ord).outcome =
        none ∧
      ((generate_curriculum_parallel_streaming_model none (.error e) (.ok (.obj fields)) ord).events.any
        mentions_teacher_failure) = true ∧
      (generate_curriculum_parallel_streaming_model none (.error e) (.ok (.obj fields)) ord).events.getLast? =
        some (.curriculum (.obj [("teacher_guide", .obj []),
          ("student_materials", (lookup_field fields ("student_materials")).getD (.obj fields))]))) ∧
    (∀ (e : PyError) (fields : List (String × JsonValue)) (ord : Bool),
      (generate_curriculum_parallel_streaming_model none (.ok (.obj fields)) (.error e) ord).outcome =
        none ∧
      ((generate_curriculum_parallel_streaming_model none (.ok (.obj fields)) (.error e) ord).events.any
        mentions_student_failure) = true ∧
      (generate_curriculum_parallel_streaming_model none (.ok (.obj fields)) (.error e) ord).events.getLast? =
        some (.curriculum (.obj [("teacher_guide",
          (lookup_field fields ("teacher_guide")).getD (.obj fields)),
          ("student_materials", .obj [])]))) ∧
    (∀ (e1 e2 : PyError) (ord : Bool),
      (generate_curriculum_parallel_streaming_model none (.error e1) (.error e2) ord).outcome =
        some (.valueError ("Both generations failed. Teacher: " ++ pyErrStr e1 ++
          ", Student: " ++ pyErrStr e2)) ∧
      ((generate_curriculum_parallel_streaming_model none (.error e1) (.error e2) ord).events.all
        (fun ev => !(is_curriculum_event ev))) = true) := by
  refine ⟨?_, ?_, ?_⟩
  · intro e fields ord
    cases ord <;> exact ⟨rfl, rfl, rfl⟩
  · intro e fields ord
    cases ord <;> exact ⟨rfl, rfl, rfl⟩
  · intro e1 e2 ord
    cases ord <;> exact ⟨rfl, rfl⟩

theorem poll_events_two_key (a b c : Bool) :
    ((poll_events a b c).all curriculum_two_key) = true := by
  cases a <;> cases b <;> cases c <;> rfl

theorem parallel_terminal_two_key (mid : String) (body : List AgentEvent)
    (hbody : (body.all curriculum_two_key) = true) (t s : Except PyError JsonValue) :
    ((parallel_terminal mid body t s).events.all curriculum_two_key) = true := by
  cases t with
  | error e1 =>
    cases s with
    | error e2 => simpa [parallel_terminal] using hbody
    | ok sv =>
      cases hv : py_dict_get_self sv ("student_materials") with
      | ok sm => simp [parallel_terminal, hv, List.all_append, hbody, curriculum_two_key]
      | error e => simp [parallel_terminal, hv, List.all_append, hbody, curriculum_two_key]
  | ok tv =>
    cases s with
    | error e2 =>
      cases hv : py_dict_get_self tv ("teacher_guide") with
      | ok tg => simp [parallel_terminal, hv, List.all_append, hbody, curriculum_two_key]
      | error e => simp [parallel_terminal, hv, List.all_append, hbody, curriculum_two_key]
    | ok sv =>
      cases ht : py_dict_get_self tv ("teacher_guide") with
      | error e =>
        simp [parallel_terminal, merge_parallel_results, ht, List.all_append, hbody,
          curriculum_two_key]
      | ok tg =>
        cases hs : py_dict_get_self sv ("student_materials") with
        | error e =>
          simp [parallel_terminal, merge_parallel_results, ht, hs, List.all_append, hbody,
            curriculum_two_key]
        | ok sm =>
          simp [parallel_terminal, merge_parallel_results, ht, hs, List.all_append, hbody,
            curriculum_two_key]

/-- Claim C7 (corrected).  Every curriculum ever emitted by the dual-call
strategy — including partial-failure outcomes — exposes exactly the two
top-level keys `teacher_guide` and `student_materials`; but the single-call
strategy returns `_parse_json_response` of the model output unchanged, with
no key guarantee at all. -/
theorem c7_result_shape :
    (∀ (k : Option String) (t s : Except PyError JsonValue) (ord : Bool),
      ((generate_curriculum_parallel_streaming_model k t s ord).events.all
        curriculum_two_key) = true) ∧
    (∀ (s : String), generate_curriculum_result none s = parse_json_response s) := by
  constructor
  · intro k t s ord
    cases hg : get_model_id k with
    | error e => simp [generate_curriculum_parallel_streaming_model, hg]
    | ok mid =>
      simp only [generate_curriculum_parallel_streaming_model, hg]
      apply parallel_terminal_two_key
      simp [List.all_append, poll_events_two_key, curriculum_two_key]
  · intro s
    rfl

/-- Claim C7 counterexample: a single-call run whose model output decodes to
an object with the single key `foo` is returned as-is by the orchestrator —
its top-level keys are not `teacher_guide`/`student_materials`. -/
theorem c7_counterexample :
    generate_curriculum_result none ("\x7b\"foo\": 1\x7d") = .ok (.obj [("foo", .num ("1"))]) ∧
    (generate_curriculum_result none ("\x7b\"foo\": 1\x7d")).map top_level_keys = .ok [("foo")] ∧
    ¬ ([("foo")] = [("teacher_guide"), ("student_materials")]) ∧
    ¬ (("teacher_guide") ∈ [("foo")]) :=
  ⟨rfl, rfl, by decide, by decide⟩

theorem find_sub_zero_of_starts (pat s : List Char) (h : pat.isPrefixOf s = true) :
    find_sub pat s = some 0 := by
  unfold find_sub
  simp [h]

theorem find_sub_cons_step (pat : List Char) (a : Char) (t : List Char)
    (h : ¬ pat.isPrefixOf (a :: t) = true) :
    find_sub pat (a :: t) = (find_sub pat t).map (fun n => n + 1) := by
  conv_lhs => unfold find_sub
  rw [if_neg h]

theorem find_sub_clean_append (c : Char) (pat2 : List Char) (pre s : List Char)
    (h : ∀ a ∈ pre, a ≠ c) :
    find_sub (c :: pat2) (pre ++ s) =
      (find_sub (c :: pat2) s).map (fun n => n + pre.length) := by
  induction pre with
  | nil =>
    cases hf : find_sub (c :: pat2) s <;> simp [hf]
  | cons a pre ih =>
    have ha : a ≠ c := h a (List.mem_cons_self a pre)
    have hpre : ∀ b ∈ pre, b ≠ c := fun b hb => h b (List.mem_cons_of_mem a hb)
    have hnp : ¬ ((c :: pat2).isPrefixOf (a :: (pre ++ s)) = true) := by
      rw [ List.isPrefixOf_iff_prefix, List.cons_prefix_cons]
      rintro ⟨h1, -⟩
      exact ha h1.symm
    rw [List.cons_append, find_sub_cons_step _ _ _ hnp, ih hpre]
    cases hf : find_sub (c :: pat2) s <;> simp [hf, Nat.add_assoc]

theorem strip_chars_cons_ws (c : Char) (l : List Char) (h : py_ws c = true) :
    strip_chars (c :: l) = strip_chars l := by
  simp [strip_chars, List.dropWhile_cons, h]

theorem rstrip_append_ws (l : List Char) (c : Char) (h : py_ws c = true) :
    ((l ++ [c]).reverse.dropWhile py_ws).reverse = (l.reverse.dropWhile py_ws).reverse := by
  simp [List.reverse_append, List.dropWhile_cons, h]

theorem strip_chars_append_ws (l : List Char) (c : Char) (h : py_ws c = true) :
    strip_chars (l ++ [c]) = strip_chars l := by
  unfold strip_chars
  rw [List.dropWhile_append]
  by_cases hd : (l.dropWhile py_ws).isEmpty = true
  · rw [if_pos hd]
    have hnil : l.dropWhile py_ws = [] := by simpa using hd
    rw [hnil]
    simp [List.dropWhile_cons, h]
  · rw [if_neg hd]
    exact rstrip_append_ws _ _ h

/-- Computation of the fence extraction on a text that opens with a
json-hinted fence around backtick-free content: the first fence's stripped
content is extracted, whatever follows the closing fence. -/
theorem extract_json_block (inner tail : List Char) (h : ∀ a ∈ inner, a ≠ '\x60') :
    extract_fenced (json_block_with inner tail) = strip_chars inner := by
  have h1 : find_sub json_fence_chars (json_block_with inner tail) = some 0 := by
    apply find_sub_zero_of_starts
    show json_fence_chars.isPrefixOf
      (json_fence_chars ++ ('\n' :: (inner ++ ('\n' :: (fence_chars ++ tail))))) = true
    rw [ List.isPrefixOf_iff_prefix]
    exact List.prefix_append _ _
  have hdrop : (json_block_with inner tail).drop (0 + 7) =
      ('\n' :: (inner ++ ['\n'])) ++ (fence_chars ++ tail) := by
    show '\n' :: (inner ++ ('\n' :: (fence_chars ++ tail))) = _
    simp
  have hclean : ∀ a ∈ ('\n' :: (inner ++ ['\n'])), a ≠ '\x60' := by
    intro a ha
    rcases List.mem_cons.mp ha with rfl | ha2
    · decide
    rcases List.mem_append.mp ha2 with ha3 | ha3
    · exact h a ha3
    · have := List.mem_singleton.mp ha3
      subst this
      decide
  have h2 : find_sub fence_chars (('\n' :: (inner ++ ['\n'])) ++ (fence_chars ++ tail)) =
      some (('\n' :: (inner ++ ['\n'])).length) := by
    show find_sub ('\x60' :: ['\x60', '\x60']) _ = _
    rw [find_sub_clean_append '\x60' (['\x60', '\x60']) _ _ hclean]
    rw [find_sub_zero_of_starts]
    · simp
    · rw [ List.isPrefixOf_iff_prefix]
      exact List.prefix_append _ _
  have htake : ((('\n' :: (inner ++ ['\n'])) ++ (fence_chars ++ tail)).take
      (('\n' :: (inner ++ ['\n'])).length)) = '\n' :: (inner ++ ['\n']) :=
    List.take_left _ _
  simp only [extract_fenced, h1]
  rw [hdrop, h2]
  simp only []
  rw [htake]
  rw [strip_chars_cons_ws _ _ (by decide)]
  rw [strip_chars_append_ws _ _ (by decide)]

/-- Claim C4 (confirmed).  The parser extracts the content of the first
json-hinted fence when one exists (whatever text, including further fences,
follows its close marker — so two JSON fences yield the first fence's
decoded content, never a concatenation); a json-hinted fence is preferred
over an earlier plain fence; with no json hint the first plain fenced block
is used; with no fence the text is used verbatim. -/
theorem c4_first_fence_wins :
    (∀ (inner tail : List Char), (∀ a ∈ inner, a ≠ '\x60') →
      extract_fenced (json_block_with inner tail) = strip_chars inner ∧
      parse_json_response (⟨json_block_with inner tail⟩ : String) =
        parse_json_response (⟨json_block_with inner []⟩ : String)) ∧
    extract_json_content ("```\nnope\n```x```json\n[1]\n```") = ("[1]") ∧
    parse_json_response ("```\nnope\n```x```json\n[1]\n```") = .ok (.arr [.num ("1")]) ∧
    extract_json_content ("pre ```\n\x7b\"k\": true\x7d\n``` post") = ("\x7b\"k\": true\x7d") ∧
    parse_json_response ("\x7b\"a\": 2\x7d") = .ok (.obj [("a", .num ("2"))]) := by
  refine ⟨?_, rfl, rfl, rfl, rfl⟩
  intro inner tail h
  have h1 := extract_json_block inner tail h
  have h2 := extract_json_block inner [] h
  refine ⟨h1, ?_⟩
  have hx : extract_json_content (⟨json_block_with inner tail⟩ : String) =
      extract_json_content (⟨json_block_with inner []⟩ : String) := by
    unfold extract_json_content
    show (⟨extract_fenced (json_block_with inner tail)⟩ : String) =
      ⟨extract_fenced (json_block_with inner [])⟩
    rw [h1, h2]
  unfold parse_json_response
  rw [hx]

theorem c4_first_fence_wins_witness :
    extract_fenced (json_block_with (String.data ("\x7b\"a\": 1\x7d"))
        ((String.data (" and then ")) ++ json_block_with (String.data ("\x7b\"a\": 2\x7d")) [])) =
      strip_chars (String.data ("\x7b\"a\": 1\x7d")) ∧
    parse_json_response (⟨json_block_with (String.data ("\x7b\"a\": 1\x7d"))
        ((String.data (" and then ")) ++ json_block_with (String.data ("\x7b\"a\": 2\x7d")) [])⟩ : String) =
      parse_json_response (⟨json_block_with (String.data ("\x7b\"a\": 1\x7d")) []⟩ : String) ∧
    parse_json_response (⟨json_block_with (String.data ("\x7b\"a\": 1\x7d")) []⟩ : String) =
      .ok (.obj [("a", .num ("1"))]) :=
  ⟨(c4_first_fence_wins.1 _ _ (by decide)).1,
   (c4_first_fence_wins.1 _ _ (by decide)).2,
   rfl⟩
